import Mathlib

/-
Verification of the curation & learning engine of the "news" repository
(src/curator.py, src/database.py) against its natural-language specification.

The Python code is shallowly embedded: SQLite tables become Lean lists of
row structures, SQL statements become pure list transformations, floats
become rationals, timestamps become integers (epoch seconds).  All
definitions are executable so that concrete runs can be checked by `decide`.
-/

set_option maxRecDepth 10000

/-! ## Preference store (src/database.py, table `user_preferences`) -/

/-- One row of the `user_preferences` table:
`(category TEXT, keyword TEXT NULL, weight REAL, source TEXT, updated_at TIMESTAMP)`
with `UNIQUE(category, keyword)`. -/
structure PrefRow where
  category : String
  keyword : Option String
  weight : ℚ
  source : String
  updatedAt : ℤ
deriving DecidableEq

/-- The smaller of two rationals, written with an explicit comparison so that
concrete runs reduce inside the kernel. -/
def qmin (a b : ℚ) : ℚ := if a ≤ b then a else b

/-- The larger of two rationals, written with an explicit comparison. -/
def qmax (a b : ℚ) : ℚ := if a ≤ b then b else a

/-- The clamp `MIN(3.0, MAX(0.1, w))` used by the upsert's `DO UPDATE` branch. -/
def clampWeight (w : ℚ) : ℚ := qmin 3 (qmax (1/10) w)

/-- `_boost_preference` (database.py:222-231): an
`INSERT ... VALUES (cat, kw, 1.0 + boost, src, now) ON CONFLICT(category, keyword)
DO UPDATE SET weight = MIN(3.0, MAX(0.1, weight + boost)), source = ..., updated_at = ...`.

Two SQLite facts shape the translation:
* the inserted value is `1.0 + boost`, with no clamp on the insert path;
* the table's `UNIQUE(category, keyword)` index treats NULL keywords as
  pairwise distinct (SQLite: "all NULL values are considered different from
  all other NULL values"), so an insert with `keyword = NULL` never raises a
  uniqueness conflict and the `DO UPDATE` branch is unreachable for
  category-level rows: every category-level call appends a fresh row.
  (`get_learned_weights` compensates by aggregating with `AVG ... GROUP BY`.)
Only a non-null keyword row can be updated in place. -/
def boost_preference (prefs : List PrefRow) (category : String) (keyword : Option String)
    (boost : ℚ) (src : String) (now : ℤ) : List PrefRow :=
  match keyword with
  | none => prefs ++ [⟨category, none, 1 + boost, src, now⟩]
  | some k =>
    if prefs.any (fun r => r.category == category && r.keyword == some k) then
      prefs.map (fun r =>
        if r.category == category && r.keyword == some k then
          { r with weight := clampWeight (r.weight + boost), source := src, updatedAt := now }
        else r)
    else prefs ++ [⟨category, some k, 1 + boost, src, now⟩]

/-- One call to `_boost_preference`, for reasoning about call sequences. -/
structure BoostCall where
  category : String
  keyword : Option String
  delta : ℚ
  src : String
  now : ℤ
deriving DecidableEq

/-- Apply a sequence of `_boost_preference` calls to a store. -/
def apply_boosts (calls : List BoostCall) (prefs : List PrefRow) : List PrefRow :=
  calls.foldl (fun ps c => boost_preference ps c.category c.keyword c.delta c.src c.now) prefs

/-- The per-row effect of `decay_old_preferences` (database.py:268-280):
rows with `updated_at < cutoff` get
`weight = MAX(0.5, weight * factor), source = 'decay', updated_at = now`. -/
def decay_row (factor : ℚ) (cutoff now : ℤ) (r : PrefRow) : PrefRow :=
  if r.updatedAt < cutoff then
    { r with weight := qmax (1/2) (r.weight * factor), source := "decay", updatedAt := now }
  else r

/-- `decay_old_preferences`: the SQL `UPDATE ... WHERE updated_at < cutoff`
applied to every row of the table. -/
def decay_old_preferences (prefs : List PrefRow) (factor : ℚ) (cutoff now : ℤ) : List PrefRow :=
  prefs.map (decay_row factor cutoff now)

/-! ## Engagement tables (src/database.py) -/

/-- One row of `article_engagement` (`article_hash` is UNIQUE). -/
structure EngagementRow where
  articleHash : String
  title : String
  source : String
  category : String
  url : String
  clicked : Bool
  clickTime : Option ℤ
  feedback : Option ℤ
  feedbackTime : Option ℤ
  shownAt : ℤ
deriving DecidableEq

/-- One row of `click_history`. -/
structure ClickRow where
  articleHash : String
  category : String
  keywordsJson : String
  clickedAt : ℤ
  hourOfDay : ℤ
  dayOfWeek : ℤ
deriving DecidableEq

/-- One row of `feedback_log` (columns set by the insert). -/
structure FeedbackRow where
  articleHash : String
  feedbackType : String
  category : String
  keywordsJson : String
deriving DecidableEq

/-- The learning database: the tables touched by the engagement recorder. -/
structure BriefDB where
  preferences : List PrefRow
  engagement : List EngagementRow
  clickHistory : List ClickRow
  feedbackLog : List FeedbackRow
deriving DecidableEq

/-- A freshly initialised database (all tables empty). -/
def emptyDB : BriefDB := ⟨[], [], [], []⟩

/-- The apostrophe character, kept out of string literals. -/
def apos : Char := Char.ofNat 39

/-- Python `str` of a list of strings, e.g. `str(["a","b"])`. -/
def python_str_of_list (ks : List String) : String :=
  "[" ++ String.intercalate ", " (ks.map (fun s => String.mk (apos :: s.data ++ [apos]))) ++ "]"

/-- `keywords_json = str(keywords) if keywords else "[]"`. -/
def keywords_json (ks : List String) : String :=
  if ks.isEmpty then "[]" else python_str_of_list ks

/-- `now.hour` for an epoch-seconds timestamp (UTC). -/
def hour_of_day (t : ℤ) : ℤ := (t / 3600) % 24

/-- Python `weekday()` (Monday = 0) for an epoch-seconds timestamp (UTC):
1970-01-01 was a Thursday (= 3). -/
def day_of_week (t : ℤ) : ℤ := (t / 86400 + 3) % 7

/-- `record_article_shown` (database.py:151-159): an
`INSERT OR IGNORE INTO article_engagement ...` keyed on the UNIQUE
`article_hash`: a duplicate hash leaves the table untouched. -/
def record_article_shown (db : BriefDB) (articleHash title src category url : String)
    (now : ℤ) : BriefDB :=
  if db.engagement.any (fun r => r.articleHash == articleHash) then db
  else { db with engagement :=
    db.engagement ++ [⟨articleHash, title, src, category, url, false, none, none, none, now⟩] }

/-- `record_click` (database.py:162-185): `UPDATE article_engagement SET clicked = 1,
click_time = now WHERE article_hash = ?` (matching zero or more rows), an insert
into `click_history`, and `_boost_preference(category, NULL, 0.05, 'click')`. -/
def record_click (db : BriefDB) (articleHash category : String) (keywords : List String)
    (now : ℤ) : BriefDB :=
  { db with
    engagement := db.engagement.map (fun r =>
      if r.articleHash == articleHash then { r with clicked := true, clickTime := some now }
      else r),
    clickHistory := db.clickHistory ++
      [⟨articleHash, category, keywords_json keywords, now, hour_of_day now, day_of_week now⟩],
    preferences := boost_preference db.preferences category none (1/20) "click" now }

/-- The signed value `1 if feedback_type in ('like', 'more_like_this') else -1`. -/
def feedback_value (feedbackType : String) : ℤ :=
  if feedbackType == "like" || feedbackType == "more_like_this" then 1 else -1

/-- `record_feedback` (database.py:188-219): maps the type to a signed value,
`UPDATE article_engagement SET feedback = ±1, feedback_time = now WHERE
article_hash = ?` (matching zero or more rows), appends to `feedback_log`,
boosts the category by `±0.1`, and each of the first five keywords by `±0.05`. -/
def record_feedback (db : BriefDB) (articleHash feedbackType category : String)
    (keywords : List String) (now : ℤ) : BriefDB :=
  let v := feedback_value feedbackType
  let boost : ℚ := if 0 < v then 1/10 else -(1/10)
  { db with
    engagement := db.engagement.map (fun r =>
      if r.articleHash == articleHash then
        { r with feedback := some v, feedbackTime := some now }
      else r),
    feedbackLog := db.feedbackLog ++ [⟨articleHash, feedbackType, category, keywords_json keywords⟩],
    preferences := (keywords.take 5).foldl
      (fun ps kw => boost_preference ps category (some kw) (boost * (1/2)) "feedback" now)
      (boost_preference db.preferences category none boost "feedback" now) }

/-- Number of `article_engagement` rows carrying a given hash. -/
def engagement_count (db : BriefDB) (h : String) : ℕ :=
  (db.engagement.filter (fun r => r.articleHash == h)).length

/-! ## Articles and scoring (src/fetcher.py `Article`, src/curator.py) -/

/-- The normalized article record (fetcher.py `Article`); `published` is an
epoch-seconds UTC timestamp, `fullText` is the empty string when full-article
extraction failed (the dataclass default). -/
structure Article where
  title : String
  link : String
  summary : String
  source : String
  published : ℤ
  category : String
  language : String
  reliability : ℚ
  articleHash : String
  fullText : String
deriving DecidableEq, Inhabited

/-- `config["user_interests"]`: static category weights and keyword tiers. -/
structure UserInterests where
  categories : List (String × ℚ)
  highPriority : List String
  mediumPriority : List String
  lowPriority : List String
deriving DecidableEq

/-- `config["scoring"]`: options read with `dict.get(key, default)`;
absent keys are `none` and the reader applies the code's default. -/
structure ScoringConfig where
  minScore : Option ℚ
  reliabilityWeight : Option ℚ
  highReliabilityBonus : Option ℚ
  crossReferenceBonus : Option ℚ
deriving DecidableEq

/-- The curation configuration document (the fields `calculate_base_score` reads). -/
structure CurationConfig where
  interests : UserInterests
  scoring : ScoringConfig
deriving DecidableEq

/-- The snapshot returned by `get_learned_weights()`: averaged category and
keyword multipliers. -/
structure LearnedWeights where
  categories : List (String × ℚ)
  keywords : List (String × ℚ)
deriving DecidableEq

/-- First value stored under a key in an association list (dict lookup). -/
def lookup_weight (l : List (String × ℚ)) (k : String) : Option ℚ :=
  (l.find? (fun p => p.1 == k)).map Prod.snd

/-- Python substring containment `sub in s`. -/
def str_contains (s sub : String) : Bool :=
  (List.range (s.data.length + 1)).any (fun i => sub.data.isPrefixOf (s.data.drop i))

/-- One static keyword tier: `for kw in tier: if kw.lower() in text: score += bonus; break`
adds the bonus once if any keyword of the tier occurs in the text. -/
def tier_bonus (tier : List String) (text : String) (bonus : ℚ) : ℚ :=
  if tier.any (fun kw => str_contains text kw.toLower) then bonus else 0

/-- Learned keyword boosts: for every learned keyword occurring in the text,
add `(weight - 1.0) * 0.1`, cumulatively. -/
def learned_keyword_boost (kws : List (String × ℚ)) (text : String) : ℚ :=
  kws.foldl (fun acc p => if str_contains text p.1.toLower then acc + (p.2 - 1) * (1/10) else acc) 0

/-- The recency bonus of curator.py:110-119 as a function of
`age = now - published` in seconds (3h = 10800, 6h = 21600, 12h = 43200). -/
def recency_bonus (age : ℤ) : ℚ :=
  if age < 10800 then 3/20
  else if age < 21600 then 1/10
  else if age < 43200 then 1/20
  else 0

/-- Double-quote or single-quote character (`'"' in full_text or "'" in full_text`). -/
def has_quote_char (s : String) : Bool :=
  s.data.any (fun c => c == Char.ofNat 34 || c == apos)

/-- After the leading digits of `\d+(?:\.\d+)?\s*(percent|%|million|billion|thousand)`:
an optional fraction, optional whitespace, then a unit word. -/
def num_unit_after_digits (rest : List Char) : Bool :=
  let rest2 :=
    match rest with
    | c :: cs =>
      if c == Char.ofNat 46 && !(cs.takeWhile Char.isDigit).isEmpty then
        cs.dropWhile Char.isDigit
      else rest
    | [] => rest
  let rest3 := rest2.dropWhile Char.isWhitespace
  ["percent", "%", "million", "billion", "thousand"].any
    (fun u => u.data.isPrefixOf rest3)

/-- Whether the numeric-with-unit pattern matches starting at this suffix. -/
def num_unit_match_at (l : List Char) : Bool :=
  if (l.takeWhile Char.isDigit).isEmpty then false
  else num_unit_after_digits (l.dropWhile Char.isDigit)

/-- `re.search` of the numeric-with-unit pattern over the (lowercased) text. -/
def has_num_unit (s : String) : Bool :=
  (List.range s.data.length).any (fun i => num_unit_match_at (s.data.drop i))

/-- A regex word character (`\w`, ASCII). -/
def word_char (c : Char) : Bool := c.isAlphanum || c == Char.ofNat 95

/-- Word-bounded occurrence of a literal pattern at position `i` of `s`
(the patterns used all start and end with word characters, so `\b` means the
neighbour is absent or a non-word character). -/
def bounded_at (pat s : List Char) (i : ℕ) : Bool :=
  pat.isPrefixOf (s.drop i)
  && (i == 0 || !word_char (s.getD (i - 1) (Char.ofNat 32)))
  && (decide (s.length ≤ i + pat.length) || !word_char (s.getD (i + pat.length) (Char.ofNat 32)))

/-- Word-bounded occurrence of a literal pattern anywhere in `s`. -/
def bounded_occurs (pat s : List Char) : Bool :=
  (List.range (s.length + 1)).any (fun i => bounded_at pat s i)

/-- Clickbait pattern 1: `\bYOU WON'?T BELIEVE\b`. -/
def clickbait_you_wont (s : List Char) : Bool :=
  bounded_occurs "YOU WONT BELIEVE".data s
  || bounded_occurs ("YOU WON".data ++ apos :: "T BELIEVE".data) s

/-- Clickbait pattern 3: `\bBREAKING\b.*!` (the `.` of `re` does not cross a
newline; `!` must appear after the bounded occurrence on the same line). -/
def clickbait_breaking (s : List Char) : Bool :=
  (List.range (s.length + 1)).any (fun i =>
    bounded_at "BREAKING".data s i
    && ((s.drop (i + 8)).takeWhile (fun c => c != Char.ofNat 10)).any (fun c => c == Char.ofNat 33))

/-- Clickbait pattern 4: `^\d+\s+(?:THINGS|WAYS|REASONS)\b`. -/
def clickbait_listicle (s : List Char) : Bool :=
  if (s.takeWhile Char.isDigit).isEmpty then false
  else
    let r1 := s.dropWhile Char.isDigit
    if (r1.takeWhile Char.isWhitespace).isEmpty then false
    else
      let r2 := r1.dropWhile Char.isWhitespace
      ["THINGS", "WAYS", "REASONS"].any (fun w =>
        w.data.isPrefixOf r2
        && (decide (r2.length ≤ w.length) || !word_char (r2.getD w.length (Char.ofNat 32))))

/-- The clickbait scan of curator.py:137-146 over the uppercased title:
`-0.15` once if any pattern matches (`break` after the first). -/
def has_clickbait (title : String) : Bool :=
  let s := title.toUpper.data
  clickbait_you_wont s
  || bounded_occurs "SHOCKING".data s
  || clickbait_breaking s
  || clickbait_listicle s
  || bounded_occurs "WHAT HAPPENS NEXT".data s

/-- The content-quality signals of curator.py:121-135: bonuses when full text
was extracted, a `-0.1` penalty when extraction failed and the link is not
arxiv/reddit. -/
def content_quality (a : Article) : ℚ :=
  if a.fullText ≠ "" then
    (if 500 < a.fullText.length then 1/10 else 0)
    + (if has_quote_char a.fullText then 1/20 else 0)
    + (if has_num_unit a.fullText.toLower then 1/20 else 0)
  else
    if a.link ≠ "" && !str_contains a.link "arxiv" && !str_contains a.link "reddit.com" then
      -(1/10)
    else 0

/-- `calculate_base_score` (curator.py:46-148).  The Python function reads the
wall clock (`datetime.now(timezone.utc)`) for the recency bonus; here that
clock value is the explicit parameter `now`.  Floats are modelled as exact
rationals. -/
def calculate_base_score (a : Article) (config : CurationConfig)
    (learned : Option LearnedWeights) (now : ℤ) : ℚ :=
  let baseCat := (lookup_weight config.interests.categories a.category).getD 1
  let catWeight :=
    match learned with
    | some lw =>
      match lookup_weight lw.categories a.category with
      | some m => baseCat * m
      | none => baseCat
    | none => baseCat
  let text := (a.title ++ " " ++ a.summary).toLower
  let score := (1/2 : ℚ) * catWeight
  let score := score + tier_bonus config.interests.highPriority text (3/10)
  let score := score + tier_bonus config.interests.mediumPriority text (1/5)
  let score := score + tier_bonus config.interests.lowPriority text (1/10)
  let score := score +
    (match learned with
     | some lw => learned_keyword_boost lw.keywords text
     | none => 0)
  let score := score + a.reliability * (config.scoring.reliabilityWeight.getD (1/4))
  let score := score +
    (if (9/10 : ℚ) ≤ a.reliability then config.scoring.highReliabilityBonus.getD (1/10) else 0)
  let score := score + recency_bonus (now - a.published)
  let score := score + content_quality a
  let score := score + (if has_clickbait a.title then -(3/20) else 0)
  qmin score 2

/-! ## Deduplication (curator.py `deduplicate_articles`)

The pairwise title similarities come from sklearn's TF-IDF vectorizer and
cosine similarity — an external library, treated here as an oracle
parameter `sim : ℕ → ℕ → ℚ` over article indices.  The elimination scan
itself (curator.py:172-194) is translated faithfully. -/

/-- The scan order `for i in range(n): for j in range(i+1, n)`. -/
def dedup_pairs (n : ℕ) : List (ℕ × ℕ) :=
  ((List.range n).map (fun i => ((List.range n).filter (fun j => i < j)).map (fun j => (i, j)))).flatten

/-- One iteration of the elimination scan: a pair is acted on only when
`sim >= threshold and keep[i] and keep[j]`; then the lower-reliability member
is dropped (`>=` keeps the earlier index on ties). -/
def dedup_step (sim : ℕ → ℕ → ℚ) (rel : ℕ → ℚ) (threshold : ℚ)
    (keep : List Bool) (p : ℕ × ℕ) : List Bool :=
  if threshold ≤ sim p.1 p.2 ∧ keep.getD p.1 false = true ∧ keep.getD p.2 false = true then
    if rel p.2 ≤ rel p.1 then keep.set p.2 false else keep.set p.1 false
  else keep

/-- The `keep` flags after the full scan, starting from `[True] * n`. -/
def dedup_keep (sim : ℕ → ℕ → ℚ) (rel : ℕ → ℚ) (threshold : ℚ) (n : ℕ) : List Bool :=
  (dedup_pairs n).foldl (dedup_step sim rel threshold) (List.replicate n true)

/-- The scan the spec describes instead (claim C2's reading): every
high-similarity pair is decided, regardless of earlier elimination marks. -/
def dedup_step_claimed (sim : ℕ → ℕ → ℚ) (rel : ℕ → ℚ) (threshold : ℚ)
    (keep : List Bool) (p : ℕ × ℕ) : List Bool :=
  if threshold ≤ sim p.1 p.2 then
    if rel p.2 ≤ rel p.1 then keep.set p.2 false else keep.set p.1 false
  else keep

/-- The `keep` flags under the spec's claimed elimination rule. -/
def dedup_keep_claimed (sim : ℕ → ℕ → ℚ) (rel : ℕ → ℚ) (threshold : ℚ) (n : ℕ) : List Bool :=
  (dedup_pairs n).foldl (dedup_step_claimed sim rel threshold) (List.replicate n true)

/-- `[a for a, k in zip(articles, keep) if k]`. -/
def select_keep (articles : List Article) (keep : List Bool) : List Article :=
  (articles.zip keep).filterMap (fun p => if p.2 then some p.1 else none)

/-- The related-pairs side output: `(hash_i, hash_j, sim)` for every scanned
pair with `sim >= relation_threshold`. -/
def dedup_relations (sim : ℕ → ℕ → ℚ) (relationThreshold : ℚ)
    (articles : List Article) : List (String × String × ℚ) :=
  (dedup_pairs articles.length).filterMap (fun p =>
    if relationThreshold ≤ sim p.1 p.2 then
      some ((articles.getD p.1 default).articleHash, (articles.getD p.2 default).articleHash,
        sim p.1 p.2)
    else none)

/-- The reliability of the article at an index. -/
def rel_of (articles : List Article) (i : ℕ) : ℚ := (articles.getD i default).reliability

/-- `deduplicate_articles` (curator.py:151-196) given the similarity oracle:
batches of fewer than two articles are returned unchanged, otherwise the
elimination scan and the relation scan run over all ordered pairs. -/
def deduplicate_articles (sim : ℕ → ℕ → ℚ) (articles : List Article)
    (threshold relationThreshold : ℚ) : List Article × List (String × String × ℚ) :=
  if articles.length < 2 then (articles, [])
  else
    (select_keep articles (dedup_keep sim (rel_of articles) threshold articles.length),
     dedup_relations sim relationThreshold articles)

/-! ## Section allocation (curator.py `curate_articles`, lines 382-406) -/

/-- A scored article as handed to the allocator. -/
structure CuratedArticle where
  article : Article
  score : ℚ
  aiSummary : String
  whyItMatters : String
deriving DecidableEq, Inhabited

/-- One entry of `config["daily_brief"]["sections"]`: `count` and `category`
are read with `.get`, so absent keys are `none` (count defaults to 5). -/
structure SectionSpec where
  name : String
  count : Option ℕ
  category : Option String
deriving DecidableEq

/-- The per-section scan: skip links already used, skip category mismatches
(`if category and ...` — an absent or empty category imposes no filter),
append otherwise, and stop once the section holds `count` articles.
Note the Python loop tests `len(section_articles) >= count` only after
appending, so even `count = 0` admits one article. -/
def alloc_loop : List CuratedArticle → Option String → ℕ → List CuratedArticle →
    List String → List CuratedArticle × List String
  | [], _, _, chosen, used => (chosen, used)
  | c :: rest, category, count, chosen, used =>
    if used.contains c.article.link then alloc_loop rest category count chosen used
    else if (match category with
             | some cat => cat ≠ "" && c.article.category != cat
             | none => false) then alloc_loop rest category count chosen used
    else if count ≤ (chosen ++ [c]).length then (chosen ++ [c], used ++ [c.article.link])
    else alloc_loop rest category count (chosen ++ [c]) (used ++ [c.article.link])

/-- The outer loop over section specs, threading the global `used_links` set. -/
def alloc_all (specs : List SectionSpec) (scored : List CuratedArticle)
    (used : List String) : List (String × List CuratedArticle) :=
  match specs with
  | [] => []
  | s :: rest =>
    let r := alloc_loop scored s.category (s.count.getD 5) [] used
    (s.name, r.1) :: alloc_all rest scored r.2

/-- The section-allocation phase of `curate_articles`: a fresh empty
`used_links` set, then one greedy pass per declared section. -/
def curate_sections (scored : List CuratedArticle) (specs : List SectionSpec) :
    List (String × List CuratedArticle) :=
  alloc_all specs scored []

/-- All article links assigned across all sections of one run, in order. -/
def assigned_links (sections : List (String × List CuratedArticle)) : List String :=
  (sections.map (fun s => s.2.map (fun c => c.article.link))).flatten

/-! ## Concrete instances used by counterexamples and witnesses -/

/-- A neutral article used to probe the scorer's clock dependence. -/
def a_c1 : Article :=
  ⟨"Example headline about markets", "https://example.com/a", "summary text",
   "Reuters", 0, "world", "en", 1/2, "h1", "x"⟩

/-- A configuration with every optional scoring field absent. -/
def cfg_c1 : CurationConfig := ⟨⟨[], [], [], []⟩, ⟨none, none, none, none⟩⟩

/-- The spec's example-scenario article: category `tech_ai`, reliability 0.95,
a high-priority keyword in the title, published two hours before scoring. -/
def a_c6 : Article :=
  ⟨"Quantum computing milestone reached", "https://example.com/q",
   "Researchers report new progress", "Reuters", 0, "tech_ai", "en", 19/20, "h6", "ok"⟩

/-- Static config for the example scenario: category weight 1.2, one keyword
per tier, scoring defaults left absent (0.25 and 0.1 apply). -/
def cfg_c6 : CurationConfig :=
  ⟨⟨[("tech_ai", 6/5)], ["quantum"], ["bitcoin"], ["hockey"]⟩, ⟨none, none, none, none⟩⟩

/-- Learned weights for the example scenario: category multiplier 1.5. -/
def lw_c6 : LearnedWeights := ⟨[("tech_ai", 3/2)], []⟩

/-- Nine keyword dislik-e-sized boosts: the first inserts the row at 0.9, the
next eight update it down to the clamp floor 0.1. -/
def c4_calls : List BoostCall :=
  List.replicate 9 ⟨"c", some "k", -(1/10), "feedback", 0⟩

/-- The store reached by `c4_calls` (one row, weight 0.1, updated at 0). -/
def c4_prefs : List PrefRow := apply_boosts c4_calls []

/-- First dislike of the spec's feedback scenario. -/
def c7_db1 : BriefDB := record_feedback emptyDB "h7" "dislike" "politics" ["election", "poll"] 0

/-- Second dislike of the spec's feedback scenario. -/
def c7_db2 : BriefDB := record_feedback c7_db1 "h7" "dislike" "politics" ["election", "poll"] 1

/-- Similarity oracle for three articles: pairs (0,1) and (0,2) similar at 0.8,
pair (1,2) dissimilar. -/
def sim_c2 : ℕ → ℕ → ℚ := fun i j =>
  match i, j with
  | 0, 1 => 4/5
  | 1, 0 => 4/5
  | 0, 2 => 4/5
  | 2, 0 => 4/5
  | _, _ => 0

/-- Reliabilities for the three articles: 0.8, 0.9, 0.8. -/
def rel_c2 : ℕ → ℚ := fun i => if i == 1 then 9/10 else 4/5

/-- Two concrete near-duplicate articles (reliability 0.8 and 0.9). -/
def arts_c9 : List Article :=
  [⟨"Fed raises interest rates by half a point", "https://example.com/f1", "s1",
    "CTV", 0, "finance", "en", 4/5, "hf1", ""⟩,
   ⟨"Federal Reserve hikes rates 50 basis points", "https://example.com/f2", "s2",
    "Reuters", 0, "finance", "en", 9/10, "hf2", ""⟩]

/-! ## Helper lemmas -/

theorem le_qmax_left (a b : ℚ) : a ≤ qmax a b := by
  unfold qmax; split
  case isTrue h => exact h
  case isFalse h => exact le_refl a

theorem qmax_le {a b c : ℚ} (h1 : a ≤ c) (h2 : b ≤ c) : qmax a b ≤ c := by
  unfold qmax; split
  case isTrue => exact h2
  case isFalse => exact h1

theorem qmin_le_left (a b : ℚ) : qmin a b ≤ a := by
  unfold qmin; split
  case isTrue => exact le_refl a
  case isFalse h => exact le_of_not_le h

theorem le_qmin {a b c : ℚ} (h1 : c ≤ a) (h2 : c ≤ b) : c ≤ qmin a b := by
  unfold qmin; split
  case isTrue => exact h1
  case isFalse => exact h2

theorem clampWeight_mem (w : ℚ) : 1/10 ≤ clampWeight w ∧ clampWeight w ≤ 3 := by
  constructor
  · exact le_qmin (by norm_num) (le_qmax_left _ _)
  · exact qmin_le_left _ _

theorem boost_preference_bounds {prefs : List PrefRow} {cat : String} {kw : Option String}
    {δ : ℚ} {src : String} {now : ℤ}
    (hl : -(9/10) ≤ δ) (hr : δ ≤ 2)
    (h : ∀ r ∈ prefs, 1/10 ≤ r.weight ∧ r.weight ≤ 3) :
    ∀ r ∈ boost_preference prefs cat kw δ src now, 1/10 ≤ r.weight ∧ r.weight ≤ 3 := by
  have hnew : (1 : ℚ)/10 ≤ 1 + δ ∧ (1 : ℚ) + δ ≤ 3 := by constructor <;> linarith
  intro r hmem
  match kw with
  | none =>
    rcases List.mem_append.1 hmem with h0 | h0
    · exact h r h0
    · simp only [List.mem_singleton] at h0
      subst h0
      exact hnew
  | some k =>
    rw [boost_preference] at hmem
    split at hmem
    · rcases List.mem_map.1 hmem with ⟨r0, hr0, hrr⟩
      subst hrr
      split
      · exact clampWeight_mem _
      · exact h r0 hr0
    · rcases List.mem_append.1 hmem with h0 | h0
      · exact h r h0
      · simp only [List.mem_singleton] at h0
        subst h0
        exact hnew

theorem apply_boosts_bounds {calls : List BoostCall} {prefs : List PrefRow}
    (hc : ∀ c ∈ calls, -(9/10) ≤ c.delta ∧ c.delta ≤ 2)
    (h : ∀ r ∈ prefs, 1/10 ≤ r.weight ∧ r.weight ≤ 3) :
    ∀ r ∈ apply_boosts calls prefs, 1/10 ≤ r.weight ∧ r.weight ≤ 3 := by
  induction calls generalizing prefs with
  | nil => exact h
  | cons c cs ih =>
    have hc0 := hc c (List.mem_cons_self c cs)
    exact ih (fun d hd => hc d (List.mem_cons_of_mem c hd))
      (boost_preference_bounds hc0.1 hc0.2 h)

/-! ## C3 -/

/-- Claim C3 counterexample: a single `boost` call with `delta = 2.5` on the
empty store goes through the insert path and stores `1.0 + 2.5 = 3.5`, above
the claimed [0.1, 3.0] bound — the insert path does not clamp. -/
theorem claimC3_counterexample :
    ((boost_preference [] "tech_ai" none (5/2) "feedback" 0).map PrefRow.weight = [7/2])
    ∧ ¬ ((7/2 : ℚ) ≤ 3) := by
  constructor
  · with_unfolding_all decide
  · norm_num

/-- Claim C3, amended: the insert-if-absent path stores `1.0 + delta`
without clamping, so the [0.1, 3.0] bound is an invariant only for call
sequences whose deltas all lie in [-0.9, 2.0] (every delta the code uses —
`+0.05`, `±0.1`, `±0.05` — does); the update path always stores
`clamp(old + delta, 0.1, 3.0)` and stays in bounds unconditionally. -/
theorem claimC3_amended (calls : List BoostCall)
    (hc : ∀ c ∈ calls, -(9/10) ≤ c.delta ∧ c.delta ≤ 2) :
    ∀ r ∈ apply_boosts calls [], 1/10 ≤ r.weight ∧ r.weight ≤ 3 :=
  apply_boosts_bounds hc (by intro r hr; cases hr)

/-- Witness for C3: the bound instantiated on one concrete in-range call. -/
theorem claimC3_amended_witness :
    1/10 ≤ (PrefRow.mk "c" none (9/10) "feedback" 0).weight
    ∧ (PrefRow.mk "c" none (9/10) "feedback" 0).weight ≤ 3 :=
  claimC3_amended [⟨"c", none, -(1/10), "feedback", 0⟩]
    (by intro c hc; simp only [List.mem_singleton] at hc; subst hc; constructor <;> norm_num)
    _ (by with_unfolding_all decide)

/-! ## C4 -/

/-- Claim C4 counterexample: weight 0.1 is reachable (one inserting dislike
boost at 0.9 followed by eight clamped `-0.1` updates), and decay with
factor 0.95 then *raises* it to the 0.5 floor: `max(0.5, 0.1·0.95) = 0.5 > 0.1`. -/
theorem claimC4_counterexample :
    c4_prefs.map PrefRow.weight = [1/10]
    ∧ (decay_old_preferences c4_prefs (19/20) 1 2).map PrefRow.weight = [1/2]
    ∧ (19/20 : ℚ) < 1
    ∧ ¬ ((1/2 : ℚ) ≤ 1/10) := by
  refine ⟨by with_unfolding_all decide, by with_unfolding_all decide, by norm_num, by norm_num⟩

/-- Claim C4, amended: for a row older than the cutoff, decay stores exactly
`max(0.5, old·factor)`; with factor < 1 this never decreases below the 0.5
floor and never increases any weight that was at least 0.5 — but a weight
below 0.5 (reachable through the keyword-update clamp floor 0.1) is *raised*
to 0.5 by the same formula. -/
theorem claimC4_amended (factor : ℚ) (cutoff now : ℤ) (r : PrefRow)
    (hf : factor < 1) (hold : r.updatedAt < cutoff) :
    (decay_row factor cutoff now r).weight = qmax (1/2) (r.weight * factor)
    ∧ 1/2 ≤ (decay_row factor cutoff now r).weight
    ∧ (1/2 ≤ r.weight → (decay_row factor cutoff now r).weight ≤ r.weight) := by
  have hval : (decay_row factor cutoff now r).weight = qmax (1/2) (r.weight * factor) := by
    rw [decay_row, if_pos hold]
  refine ⟨hval, ?_, ?_⟩
  · rw [hval]; exact le_qmax_left _ _
  · intro hw
    rw [hval]
    refine qmax_le hw ?_
    have h0 : (0 : ℚ) ≤ r.weight := le_trans (by norm_num) hw
    exact mul_le_of_le_one_right h0 (le_of_lt hf)

/-- Witness for C4: the amended statement at a concrete decayed row. -/
theorem claimC4_amended_witness :
    (decay_row (19/20) 1 2 ⟨"c", none, 1, "click", 0⟩).weight = qmax (1/2) (1 * (19/20))
    ∧ 1/2 ≤ (decay_row (19/20) 1 2 ⟨"c", none, 1, "click", 0⟩).weight
    ∧ (1/2 ≤ (1 : ℚ) → (decay_row (19/20) 1 2 ⟨"c", none, 1, "click", 0⟩).weight ≤ 1) :=
  claimC4_amended (19/20) 1 2 ⟨"c", none, 1, "click", 0⟩ (by norm_num) (by norm_num)

/-! ## C8 -/

theorem no_row_of_count_zero {db : BriefDB} {h : String}
    (h0 : engagement_count db h = 0) :
    ∀ r ∈ db.engagement, (r.articleHash == h) = false := by
  intro r hr
  by_contra hne
  have hmem : r ∈ db.engagement.filter (fun r => r.articleHash == h) :=
    List.mem_filter.2 ⟨hr, by simpa using hne⟩
  rw [List.length_eq_zero.1 h0] at hmem
  cases hmem

theorem any_eq_false_of_count_zero {db : BriefDB} {h : String}
    (h0 : engagement_count db h = 0) :
    db.engagement.any (fun r => r.articleHash == h) = false := by
  rw [List.any_eq_false]
  intro r hr
  simpa using no_row_of_count_zero h0 r hr

/-- Claim C8 (confirmed): starting from a state holding no engagement row for
the hash, `record_article_shown` creates exactly one row, and a second call
with the same hash — whatever its title/source/category/url/timestamp — is a
complete no-op, leaving the first row (its shown timestamp included)
unchanged. -/
theorem claimC8 (db : BriefDB) (h t1 s1 c1 u1 t2 s2 c2 u2 : String) (n1 n2 : ℤ)
    (h0 : engagement_count db h = 0) :
    engagement_count (record_article_shown db h t1 s1 c1 u1 n1) h = 1
    ∧ record_article_shown (record_article_shown db h t1 s1 c1 u1 n1) h t2 s2 c2 u2 n2
      = record_article_shown db h t1 s1 c1 u1 n1 := by
  have hany := any_eq_false_of_count_zero h0
  have hfil : db.engagement.filter (fun r => r.articleHash == h) = [] :=
    List.length_eq_zero.1 h0
  have hstep : record_article_shown db h t1 s1 c1 u1 n1
      = { db with engagement :=
          db.engagement ++ [⟨h, t1, s1, c1, u1, false, none, none, none, n1⟩] } := by
    rw [record_article_shown, hany]
    rfl
  constructor
  · rw [hstep]
    simp [engagement_count, List.filter_append, hfil]
  · rw [hstep, record_article_shown]
    simp

/-- Witness for C8 at the empty database. -/
theorem claimC8_witness :
    engagement_count (record_article_shown emptyDB "h" "t" "s" "c" "u" 5) "h" = 1
    ∧ record_article_shown (record_article_shown emptyDB "h" "t" "s" "c" "u" 5) "h" "t2" "s2" "c2" "u2" 9
      = record_article_shown emptyDB "h" "t" "s" "c" "u" 5 :=
  claimC8 emptyDB "h" "t" "s" "c" "u" "t2" "s2" "c2" "u2" 5 9 (by with_unfolding_all decide)

/-! ## C10 -/

/-- Claim C10 (confirmed): with no engagement row for the hash, the
`UPDATE ... WHERE article_hash = ?` of `record_click` and `record_feedback`
matches zero rows — no error is possible and no engagement row is created or
changed — while the other side effects still happen: the click-history row,
the feedback-log row, the `+0.05` category boost of a click, and the `∓0.1`
category / `∓0.05` keyword boosts of feedback. -/
theorem claimC10 (db : BriefDB) (h ft cat : String) (kws : List String) (now : ℤ)
    (h0 : engagement_count db h = 0) :
    (record_click db h cat kws now).engagement = db.engagement
    ∧ (record_click db h cat kws now).clickHistory
      = db.clickHistory ++ [⟨h, cat, keywords_json kws, now, hour_of_day now, day_of_week now⟩]
    ∧ (record_click db h cat kws now).preferences
      = boost_preference db.preferences cat none (1/20) "click" now
    ∧ (record_feedback db h ft cat kws now).engagement = db.engagement
    ∧ (record_feedback db h ft cat kws now).feedbackLog
      = db.feedbackLog ++ [⟨h, ft, cat, keywords_json kws⟩]
    ∧ (record_feedback db h ft cat kws now).preferences
      = (kws.take 5).foldl
          (fun ps kw => boost_preference ps cat (some kw)
            ((if 0 < feedback_value ft then 1/10 else -(1/10)) * (1/2)) "feedback" now)
          (boost_preference db.preferences cat none
            (if 0 < feedback_value ft then 1/10 else -(1/10)) "feedback" now) := by
  have hnone := no_row_of_count_zero h0
  have hmap : ∀ (f : EngagementRow → EngagementRow),
      db.engagement.map (fun r => if r.articleHash == h then f r else r) = db.engagement := by
    intro f
    have : db.engagement.map (fun r => if r.articleHash == h then f r else r)
        = db.engagement.map id := by
      apply List.map_congr_left
      intro r hr
      rw [hnone r hr]
      rfl
    rw [this, List.map_id]
  refine ⟨hmap _, rfl, rfl, hmap _, rfl, rfl⟩

/-- Witness for C10 at the empty database. -/
theorem claimC10_witness :
    (record_click emptyDB "h" "politics" ["a"] 3).engagement = emptyDB.engagement
    ∧ (record_click emptyDB "h" "politics" ["a"] 3).clickHistory
      = emptyDB.clickHistory ++ [⟨"h", "politics", keywords_json ["a"], 3, hour_of_day 3, day_of_week 3⟩]
    ∧ (record_click emptyDB "h" "politics" ["a"] 3).preferences
      = boost_preference emptyDB.preferences "politics" none (1/20) "click" 3
    ∧ (record_feedback emptyDB "h" "dislike" "politics" ["a"] 3).engagement = emptyDB.engagement
    ∧ (record_feedback emptyDB "h" "dislike" "politics" ["a"] 3).feedbackLog
      = emptyDB.feedbackLog ++ [⟨"h", "dislike", "politics", keywords_json ["a"]⟩]
    ∧ (record_feedback emptyDB "h" "dislike" "politics" ["a"] 3).preferences
      = (["a"].take 5).foldl
          (fun ps kw => boost_preference ps "politics" (some kw)
            ((if 0 < feedback_value "dislike" then 1/10 else -(1/10)) * (1/2)) "feedback" 3)
          (boost_preference emptyDB.preferences "politics" none
            (if 0 < feedback_value "dislike" then 1/10 else -(1/10)) "feedback" 3) :=
  claimC10 emptyDB "h" "dislike" "politics" ["a"] 3 (by with_unfolding_all decide)

/-! ## C7 -/

theorem filter_none_map_aux (φ : PrefRow → PrefRow)
    (h1 : ∀ r, r.keyword = none → φ r = r) (h2 : ∀ r, (φ r).keyword = r.keyword) :
    ∀ l : List PrefRow,
      (l.map φ).filter (fun r => r.keyword == none) = l.filter (fun r => r.keyword == none) := by
  intro l
  induction l with
  | nil => rfl
  | cons a l ih =>
    simp only [List.map_cons, List.filter_cons]
    have hkw : ((φ a).keyword == none) = (a.keyword == none) := by rw [h2]
    rw [hkw]
    cases ha : (a.keyword == none) with
    | true =>
      have hfa : φ a = a := h1 a (by simpa using ha)
      simp [hfa, ih]
    | false => simp [ih]

/-- A keyword-level upsert never touches the category-level (null keyword) rows. -/
theorem filter_none_boost_some (prefs : List PrefRow) (cat k : String) (δ : ℚ)
    (src : String) (now : ℤ) :
    (boost_preference prefs cat (some k) δ src now).filter (fun r => r.keyword == none)
      = prefs.filter (fun r => r.keyword == none) := by
  rw [boost_preference]
  split
  · apply filter_none_map_aux
    · intro r hr
      have : (r.keyword == some k) = false := by rw [hr]; rfl
      simp only [this, Bool.and_false, if_neg]
      simp
    · intro r
      split <;> rfl
  · rw [List.filter_append]
    simp

theorem filter_none_keyword_foldl (kws : List String) (cat src : String) (δ : ℚ) (now : ℤ)
    (prefs : List PrefRow) :
    ((kws.foldl (fun ps kw => boost_preference ps cat (some kw) δ src now) prefs).filter
      (fun r => r.keyword == none))
      = prefs.filter (fun r => r.keyword == none) := by
  induction kws generalizing prefs with
  | nil => rfl
  | cons k ks ih =>
    rw [List.foldl_cons, ih, filter_none_boost_some]

/-- Claim C7 counterexample: two consecutive dislikes on `politics` (the
spec's scenario).  The claim predicts the category weight drops 1.0 → 0.9 →
0.8; the code instead appends a fresh 0.9 category row on each dislike (the
null-keyword upsert never matches), so after two dislikes the category-level
rows are `[0.9, 0.9]` and no stored weight equals 0.8. -/
theorem claimC7_counterexample :
    ((c7_db2.preferences.filter (fun r => r.keyword == none)).map PrefRow.weight = [9/10, 9/10])
    ∧ ¬ ((4/5 : ℚ) ∈ c7_db2.preferences.map PrefRow.weight) := by
  constructor
  · with_unfolding_all decide
  · with_unfolding_all decide

/-- Claim C7, amended: `recordFeedback` maps the type to a signed value (+1
for like/more_like_this, −1 otherwise).  A dislike *appends* a new
category-level row with weight `1.0 − 0.1 = 0.9` and provenance `feedback`,
leaving every existing category-level row untouched (the null-keyword key
never fires the upsert's conflict clause); the keyword-level part is as
claimed: each of the first ≤ 5 keywords gets an upsert with delta −0.05
whose update path stores `clamp(old − 0.05, 0.1, 3.0)`. -/
theorem claimC7_amended (db : BriefDB) (h cat : String) (kws : List String) (now : ℤ)
    (prefs : List PrefRow) (kw : String)
    (hkw : ∃ r ∈ prefs, r.category = cat ∧ r.keyword = some kw) :
    ((record_feedback db h "dislike" cat kws now).preferences.filter (fun r => r.keyword == none)
      = db.preferences.filter (fun r => r.keyword == none) ++ [⟨cat, none, 9/10, "feedback", now⟩])
    ∧ ((record_feedback db h "dislike" cat kws now).preferences
      = (kws.take 5).foldl
          (fun ps k => boost_preference ps cat (some k) (-(1/20)) "feedback" now)
          (db.preferences ++ [⟨cat, none, 9/10, "feedback", now⟩]))
    ∧ ((boost_preference prefs cat (some kw) (-(1/20)) "feedback" now).map PrefRow.weight
      = prefs.map (fun r =>
          if r.category == cat && r.keyword == some kw then clampWeight (r.weight - 1/20)
          else r.weight))
    ∧ feedback_value "dislike" = -1 ∧ feedback_value "less_like_this" = -1
    ∧ feedback_value "like" = 1 ∧ feedback_value "more_like_this" = 1 := by
  have hboost : (if 0 < feedback_value "dislike" then (1 : ℚ)/10 else -(1/10)) = -(1/10) := rfl
  have hpref : (record_feedback db h "dislike" cat kws now).preferences
      = (kws.take 5).foldl
          (fun ps k => boost_preference ps cat (some k) (-(1/10) * (1/2)) "feedback" now)
          (db.preferences ++ [⟨cat, none, 1 + -(1/10), "feedback", now⟩]) := rfl
  have hhalf : (-(1/10) * (1/2) : ℚ) = -(1/20) := by norm_num
  have hnine : (1 + -(1/10) : ℚ) = 9/10 := by norm_num
  have hpref9 : (record_feedback db h "dislike" cat kws now).preferences
      = (kws.take 5).foldl
          (fun ps k => boost_preference ps cat (some k) (-(1/20)) "feedback" now)
          (db.preferences ++ [⟨cat, none, 9/10, "feedback", now⟩]) := by
    rw [hpref, hhalf, hnine]
  refine ⟨?_, hpref9, ?_, rfl, rfl, rfl, rfl⟩
  · rw [hpref9, filter_none_keyword_foldl, List.filter_append]
    simp
  · have hany : prefs.any (fun r => r.category == cat && r.keyword == some kw) = true := by
      rw [List.any_eq_true]
      rcases hkw with ⟨r, hr, hc, hk⟩
      exact ⟨r, hr, by rw [hc, hk]; simp⟩
    rw [boost_preference, if_pos hany, List.map_map]
    apply List.map_congr_left
    intro r hr
    simp only [Function.comp_apply]
    split
    · simp only [PrefRow.weight]
      rw [sub_eq_add_neg]
    · rfl

/-- Witness for C7 at a one-row store holding the keyword row. -/
theorem claimC7_amended_witness :
    ((record_feedback emptyDB "h" "dislike" "politics" ["election"] 0).preferences.filter
        (fun r => r.keyword == none)
      = emptyDB.preferences.filter (fun r => r.keyword == none)
        ++ [⟨"politics", none, 9/10, "feedback", 0⟩])
    ∧ ((record_feedback emptyDB "h" "dislike" "politics" ["election"] 0).preferences
      = (["election"].take 5).foldl
          (fun ps k => boost_preference ps "politics" (some k) (-(1/20)) "feedback" 0)
          (emptyDB.preferences ++ [⟨"politics", none, 9/10, "feedback", 0⟩]))
    ∧ ((boost_preference [⟨"politics", some "election", 1, "initial", 0⟩] "politics"
          (some "election") (-(1/20)) "feedback" 0).map PrefRow.weight
      = ([⟨"politics", some "election", 1, "initial", 0⟩] : List PrefRow).map (fun r =>
          if r.category == "politics" && r.keyword == some "election" then
            clampWeight (r.weight - 1/20)
          else r.weight))
    ∧ feedback_value "dislike" = -1 ∧ feedback_value "less_like_this" = -1
    ∧ feedback_value "like" = 1 ∧ feedback_value "more_like_this" = 1 :=
  claimC7_amended emptyDB "h" "politics" ["election"] 0
    [⟨"politics", some "election", 1, "initial", 0⟩] "election"
    ⟨⟨"politics", some "election", 1, "initial", 0⟩, by simp, rfl, rfl⟩

/-! ## C1 -/

/-- Claim C1 counterexample: the scorer is *not* a function of the
(article, config, weights) triple alone — it reads the wall clock for the
recency bonus.  The same article scored with the same config and weights one
hour after publication and again two days after publication yields two
different floats (the recency bonus drops from 0.15 to 0). -/
theorem claimC1_counterexample :
    calculate_base_score a_c1 cfg_c1 none 3600 ≠ calculate_base_score a_c1 cfg_c1 none 172800 := by
  with_unfolding_all decide

/-- Claim C1, amended: the scorer is a deterministic pure function of the
quadruple (article, config, weights, current time) — there is no randomness,
and the clock enters only through the recency tier: any two evaluation times
giving the same recency bonus for the article give exactly equal scores. -/
theorem claimC1_amended (a : Article) (cfg : CurationConfig) (lw : Option LearnedWeights)
    (t1 t2 : ℤ) (hbin : recency_bonus (t1 - a.published) = recency_bonus (t2 - a.published)) :
    calculate_base_score a cfg lw t1 = calculate_base_score a cfg lw t2 := by
  unfold calculate_base_score
  rw [hbin]

/-- Witness for C1: two distinct times in the same recency tier score equally. -/
theorem claimC1_amended_witness :
    calculate_base_score a_c1 cfg_c1 none 1000 = calculate_base_score a_c1 cfg_c1 none 2000 :=
  claimC1_amended a_c1 cfg_c1 none 1000 2000 (by with_unfolding_all decide)

/-! ## C6 -/

/-- Claim C6 (confirmed): the spec's example scenario.  Category `tech_ai`
with static weight 1.2 and learned multiplier 1.5, reliability 0.95, a
high-priority keyword in the title, published two hours before scoring, no
medium/low/learned keyword, clickbait, or content-quality adjustment:
the score is 0.5·(1.2·1.5) + 0.3 + 0.95·0.25 + 0.1 + 0.15 = 1.6875 = 27/16,
below the 2.0 cap. -/
theorem claimC6 : calculate_base_score a_c6 cfg_c6 (some lw_c6) 7200 = 27/16 := by
  with_unfolding_all decide

/-! ## Deduplication lemmas -/

theorem getD_set_false_imp : ∀ (l : List Bool) (k m : ℕ),
    (l.set k false).getD m false = true → l.getD m false = true := by
  intro l
  induction l with
  | nil => intro k m h; exact h
  | cons a l ih =>
    intro k m h
    match k, m with
    | 0, 0 => exact absurd h (by simp [List.getD])
    | 0, m + 1 => exact h
    | k + 1, 0 => exact h
    | k + 1, m + 1 => exact ih k m h

theorem getD_set_false_self : ∀ (l : List Bool) (k : ℕ),
    (l.set k false).getD k false = false := by
  intro l
  induction l with
  | nil => intro k; rfl
  | cons a l ih =>
    intro k
    match k with
    | 0 => rfl
    | k + 1 => exact ih k

theorem dedup_step_mono {sim : ℕ → ℕ → ℚ} {rel : ℕ → ℚ} {th : ℚ}
    (keep : List Bool) (p : ℕ × ℕ) (m : ℕ)
    (h : (dedup_step sim rel th keep p).getD m false = true) :
    keep.getD m false = true := by
  rw [dedup_step] at h
  split at h
  · split at h
    · exact getD_set_false_imp _ _ _ h
    · exact getD_set_false_imp _ _ _ h
  · exact h

theorem dedup_fold_mono {sim : ℕ → ℕ → ℚ} {rel : ℕ → ℚ} {th : ℚ} :
    ∀ (pairs : List (ℕ × ℕ)) (keep : List Bool) (m : ℕ),
    ((pairs.foldl (dedup_step sim rel th) keep).getD m false = true) →
    keep.getD m false = true := by
  intro pairs
  induction pairs with
  | nil => intro keep m h; exact h
  | cons p ps ih =>
    intro keep m h
    exact dedup_step_mono keep p m (ih _ m h)

theorem dedup_step_length {sim : ℕ → ℕ → ℚ} {rel : ℕ → ℚ} {th : ℚ}
    (keep : List Bool) (p : ℕ × ℕ) :
    (dedup_step sim rel th keep p).length = keep.length := by
  rw [dedup_step]
  split
  · split <;> exact List.length_set _ _ _
  · rfl

theorem dedup_fold_length {sim : ℕ → ℕ → ℚ} {rel : ℕ → ℚ} {th : ℚ} :
    ∀ (pairs : List (ℕ × ℕ)) (keep : List Bool),
    (pairs.foldl (dedup_step sim rel th) keep).length = keep.length := by
  intro pairs
  induction pairs with
  | nil => intro keep; rfl
  | cons p ps ih =>
    intro keep
    rw [List.foldl_cons, ih, dedup_step_length]

theorem mem_dedup_pairs {i j n : ℕ} (hij : i < j) (hj : j < n) : (i, j) ∈ dedup_pairs n := by
  rw [dedup_pairs, List.mem_flatten]
  refine ⟨((List.range n).filter (fun j => i < j)).map (fun j => (i, j)), ?_, ?_⟩
  · exact List.mem_map_of_mem _ (List.mem_range.2 (lt_trans hij hj))
  · exact List.mem_map_of_mem _ (List.mem_filter.2 ⟨List.mem_range.2 hj, by simpa using hij⟩)

/-- At most one member of a scanned high-similarity pair survives the scan. -/
theorem dedup_keep_pair {sim : ℕ → ℕ → ℚ} {rel : ℕ → ℚ} {th : ℚ} {n i j : ℕ}
    (hij : i < j) (hj : j < n) (hsim : th ≤ sim i j) :
    ¬ ((dedup_keep sim rel th n).getD i false = true
       ∧ (dedup_keep sim rel th n).getD j false = true) := by
  rintro ⟨hi, hjk⟩
  obtain ⟨l1, l2, hsplit⟩ := List.append_of_mem (mem_dedup_pairs hij hj)
  rw [dedup_keep, hsplit, List.foldl_append, List.foldl_cons] at hi hjk
  set keepB := l1.foldl (dedup_step sim rel th) (List.replicate n true) with hkeepB
  have hBi : keepB.getD i false = true :=
    dedup_step_mono _ _ _ (dedup_fold_mono l2 _ i hi)
  have hBj : keepB.getD j false = true :=
    dedup_step_mono _ _ _ (dedup_fold_mono l2 _ j hjk)
  have hstep : dedup_step sim rel th keepB (i, j)
      = if rel j ≤ rel i then keepB.set j false else keepB.set i false := by
    rw [dedup_step, if_pos ⟨hsim, hBi, hBj⟩]
  have hAi := dedup_fold_mono l2 _ i hi
  have hAj := dedup_fold_mono l2 _ j hjk
  rw [hstep] at hAi hAj
  by_cases hrel : rel j ≤ rel i
  · rw [if_pos hrel] at hAj
    rw [getD_set_false_self] at hAj
    cases hAj
  · rw [if_neg hrel] at hAi
    rw [getD_set_false_self] at hAi
    cases hAi

theorem select_keep_length_le (articles : List Article) (keep : List Bool) :
    (select_keep articles keep).length ≤ articles.length :=
  le_trans (List.length_filterMap_le _ _)
    (by rw [List.length_zip]; exact min_le_left _ _)

/-! ## C9 -/

/-- Claim C9 (confirmed): deduplication never returns more survivors than it
was given, and for every scanned pair with similarity at or above the dedup
threshold, at most one member's keep-flag survives the scan — hence at most
one member of the pair appears in the survivor list, which is exactly the
keep-flag selection of the input. -/
theorem claimC9 (sim : ℕ → ℕ → ℚ) (articles : List Article) (th rth : ℚ) (i j : ℕ)
    (hij : i < j) (hj : j < articles.length) (hsim : th ≤ sim i j) :
    (deduplicate_articles sim articles th rth).1.length ≤ articles.length
    ∧ ¬ ((dedup_keep sim (rel_of articles) th articles.length).getD i false = true
         ∧ (dedup_keep sim (rel_of articles) th articles.length).getD j false = true)
    ∧ (deduplicate_articles sim articles th rth).1
      = select_keep articles (dedup_keep sim (rel_of articles) th articles.length) := by
  have h2 : ¬ (articles.length < 2) := by omega
  refine ⟨?_, dedup_keep_pair hij hj hsim, ?_⟩
  · rw [deduplicate_articles, if_neg h2]
    exact select_keep_length_le _ _
  · rw [deduplicate_articles, if_neg h2]

/-- Witness for C9 on two concrete near-duplicate articles. -/
theorem claimC9_witness :
    (deduplicate_articles sim_c2 arts_c9 (7/10) (1/2)).1.length ≤ arts_c9.length
    ∧ ¬ ((dedup_keep sim_c2 (rel_of arts_c9) (7/10) arts_c9.length).getD 0 false = true
         ∧ (dedup_keep sim_c2 (rel_of arts_c9) (7/10) arts_c9.length).getD 1 false = true)
    ∧ (deduplicate_articles sim_c2 arts_c9 (7/10) (1/2)).1
      = select_keep arts_c9 (dedup_keep sim_c2 (rel_of arts_c9) (7/10) arts_c9.length) :=
  claimC9 sim_c2 arts_c9 (7/10) (1/2) 0 1 (by omega) (by with_unfolding_all decide)
    (by with_unfolding_all decide)

/-! ## C2 -/

/-- Claim C2 counterexample: three articles, similarities
`sim(0,1) = sim(0,2) = 0.8 ≥ 0.7`, `sim(1,2) = 0`, reliabilities
`(0.8, 0.9, 0.8)`.  The code eliminates article 0 at pair (0,1) and then
*skips* pair (0,2) because `keep[0]` is already false, so article 2 survives;
under the claim's rule (every high-similarity pair decided, eliminated
articles still acting as survivors) article 2 would be eliminated by the
already-eliminated article 0. -/
theorem claimC2_counterexample :
    dedup_keep sim_c2 rel_c2 (7/10) 3 = [false, true, true]
    ∧ dedup_keep_claimed sim_c2 rel_c2 (7/10) 3 = [false, true, false]
    ∧ ([false, true, true] ≠ [false, true, false]) := by
  refine ⟨by with_unfolding_all decide, by with_unfolding_all decide, by decide⟩

/-- Claim C2, amended: a scanned pair is acted on only while *both* members
are still kept — a pair with an already-eliminated member is skipped
entirely, so an eliminated article never eliminates a third one; when both
members are kept and similarity reaches the threshold, the lower-reliability
member is eliminated (ties keep the earlier-indexed article); and keep-flags
are permanent: an article kept at the end was kept at every earlier point of
the scan. -/
theorem claimC2_amended (sim : ℕ → ℕ → ℚ) (rel : ℕ → ℚ) (th : ℚ) :
    (∀ (keep : List Bool) (i j : ℕ),
      (keep.getD i false = false ∨ keep.getD j false = false) →
      dedup_step sim rel th keep (i, j) = keep)
    ∧ (∀ (keep : List Bool) (i j : ℕ),
      keep.getD i false = true → keep.getD j false = true → th ≤ sim i j →
      dedup_step sim rel th keep (i, j)
        = if rel j ≤ rel i then keep.set j false else keep.set i false)
    ∧ (∀ (pairs : List (ℕ × ℕ)) (keep : List Bool) (m : ℕ),
      ((pairs.foldl (dedup_step sim rel th) keep).getD m false = true) →
      keep.getD m false = true) := by
  refine ⟨?_, ?_, fun pairs => dedup_fold_mono pairs⟩
  · intro keep i j hfalse
    rw [dedup_step]
    rw [if_neg]
    rintro ⟨_, hi, hj⟩
    rcases hfalse with hf | hf
    · rw [hi] at hf; cases hf
    · rw [hj] at hf; cases hf
  · intro keep i j hi hj hsim
    rw [dedup_step, if_pos ⟨hsim, hi, hj⟩]

/-- Witness for C2: the three parts instantiated on the concrete scenario. -/
theorem claimC2_amended_witness :
    (dedup_step sim_c2 rel_c2 (7/10) [false, true, true] (0, 2) = [false, true, true])
    ∧ (dedup_step sim_c2 rel_c2 (7/10) [true, true, true] (0, 1)
      = if rel_c2 1 ≤ rel_c2 0 then [true, true, true].set 1 false
        else [true, true, true].set 0 false)
    ∧ ((([((0 : ℕ), (1 : ℕ))].foldl (dedup_step sim_c2 rel_c2 (7/10)) [true]).getD 0 false = true) →
      (([true] : List Bool).getD 0 false = true)) :=
  ⟨(claimC2_amended sim_c2 rel_c2 (7/10)).1 [false, true, true] 0 2 (Or.inl rfl),
   (claimC2_amended sim_c2 rel_c2 (7/10)).2.1 [true, true, true] 0 1 rfl rfl
     (by with_unfolding_all decide),
   (claimC2_amended sim_c2 rel_c2 (7/10)).2.2 [(0, 1)] [true] 0⟩

/-! ## Allocation lemmas -/

theorem alloc_loop_cons (c : CuratedArticle) (rest : List CuratedArticle)
    (cat : Option String) (count : ℕ) (chosen : List CuratedArticle) (used : List String) :
    alloc_loop (c :: rest) cat count chosen used
      = if used.contains c.article.link then alloc_loop rest cat count chosen used
        else if (match cat with
                 | some catv => catv ≠ "" && c.article.category != catv
                 | none => false) then alloc_loop rest cat count chosen used
        else if count ≤ (chosen ++ [c]).length then (chosen ++ [c], used ++ [c.article.link])
        else alloc_loop rest cat count (chosen ++ [c]) (used ++ [c.article.link]) := rfl

theorem alloc_loop_spec (scored : List CuratedArticle) : ∀ (cat : Option String) (count : ℕ)
    (chosen : List CuratedArticle) (used : List String),
    ∃ delta : List CuratedArticle,
      alloc_loop scored cat count chosen used
        = (chosen ++ delta, used ++ delta.map (fun c => c.article.link))
      ∧ (delta.map (fun c => c.article.link)).Nodup
      ∧ (∀ l ∈ delta.map (fun c => c.article.link), l ∉ used) := by
  induction scored with
  | nil =>
    intro cat count chosen used
    exact ⟨[], by simp [alloc_loop], by simp, by simp⟩
  | cons c rest ih =>
    intro cat count chosen used
    cases hcont : used.contains c.article.link with
    | true =>
      obtain ⟨d, hd, hnd, hnu⟩ := ih cat count chosen used
      exact ⟨d, by rw [alloc_loop_cons, if_pos hcont]; exact hd, hnd, hnu⟩
    | false =>
      have hnotmem : c.article.link ∉ used := by simpa using hcont
      cases hfil : (match cat with
          | some catv => catv ≠ "" && c.article.category != catv
          | none => false) with
      | true =>
        obtain ⟨d, hd, hnd, hnu⟩ := ih cat count chosen used
        refine ⟨d, ?_, hnd, hnu⟩
        rw [alloc_loop_cons, if_neg (by simpa using hcont), if_pos hfil]
        exact hd
      | false =>
        by_cases hcount : count ≤ (chosen ++ [c]).length
        · refine ⟨[c], ?_, by simp, ?_⟩
          · rw [alloc_loop_cons, if_neg (by simpa using hcont), if_neg (by rw [hfil]; simp), if_pos hcount]
            rfl
          · intro l hl
            simp only [List.map_cons, List.map_nil, List.mem_singleton] at hl
            subst hl
            exact hnotmem
        · obtain ⟨d, hd, hnd, hnu⟩ := ih cat count (chosen ++ [c]) (used ++ [c.article.link])
          refine ⟨c :: d, ?_, ?_, ?_⟩
          · rw [alloc_loop_cons, if_neg (by simpa using hcont), if_neg (by rw [hfil]; simp), if_neg hcount, hd]
            simp
          · simp only [List.map_cons]
            refine List.nodup_cons.2 ⟨?_, hnd⟩
            intro hmem
            exact hnu _ hmem (List.mem_append_right _ (List.mem_singleton.2 rfl))
          · intro l hl
            simp only [List.map_cons, List.mem_cons] at hl
            rcases hl with hl | hl
            · subst hl; exact hnotmem
            · exact fun hmem => hnu l hl (List.mem_append_left _ hmem)

theorem alloc_all_nodup (specs : List SectionSpec) : ∀ (scored : List CuratedArticle)
    (used : List String),
    (assigned_links (alloc_all specs scored used)).Nodup
    ∧ ∀ l ∈ assigned_links (alloc_all specs scored used), l ∉ used := by
  induction specs with
  | nil =>
    intro scored used
    exact ⟨by simp [alloc_all, assigned_links], by simp [alloc_all, assigned_links]⟩
  | cons s rest ih =>
    intro scored used
    obtain ⟨d, hd, hnd, hnu⟩ := alloc_loop_spec scored s.category (s.count.getD 5) [] used
    have hlinks : assigned_links (alloc_all (s :: rest) scored used)
        = d.map (fun c => c.article.link)
          ++ assigned_links (alloc_all rest scored (used ++ d.map (fun c => c.article.link))) := by
      rw [alloc_all, assigned_links, List.map_cons, List.flatten_cons, hd]
      rfl
    obtain ⟨ihnd, ihnu⟩ := ih scored (used ++ d.map (fun c => c.article.link))
    constructor
    · rw [hlinks]
      refine List.Nodup.append hnd ihnd ?_
      intro l hl hr
      exact ihnu l hr (List.mem_append_right _ hl)
    · intro l hl
      rw [hlinks] at hl
      rcases List.mem_append.1 hl with hl | hl
      · exact hnu l hl
      · exact fun hmem => ihnu l hl (List.mem_append_left _ hmem)

/-! ## C5 -/

/-- Claim C5 (confirmed): after one run of the section-allocation phase, the
article links assigned across all sections are pairwise distinct — every
link appears in at most one (section, position) slot, for every input list
of scored articles (duplicates included) and every list of section specs. -/
theorem claimC5 (scored : List CuratedArticle) (specs : List SectionSpec) :
    (assigned_links (curate_sections scored specs)).Nodup :=
  (alloc_all_nodup specs scored []).1
